import Mathlib

/-
  Verification development for the agent-poker table/hand state machine
  (src/programs/agent-poker/src/lib.rs).

  The data model (Table, Seat) and every instruction handler are embedded as
  pure Lean functions.  Machine integers (u64/u8) are modelled as Nat; the
  subtractions of the source are modelled with truncated Nat subtraction and
  the places where the source could underflow are analysed explicitly.
  Each handler returns the error it would raise (if any) together with the
  account state as left at the point of return, so that check-before-write
  ordering is visible to the theorems.  A global state (table plus the list
  of seat accounts) with a step function over the seven mutating
  instructions gives a reachability relation used by the claims that speak
  about reachable states.
-/

namespace AgentPoker

/-- Table lifecycle states, from the source enum TableState. -/
inductive TableState
  | Waiting
  | PreFlop
  | Flop
  | Turn
  | River
  | Showdown
  | BetweenHands
  deriving DecidableEq, Repr

/-- Player actions, from the source enum PokerAction. -/
inductive PokerAction
  | Fold
  | Check
  | Call
  | Raise
  | AllIn
  deriving DecidableEq, Repr

/-- Typed errors, from the source enum ErrorCode. -/
inductive ErrorCode
  | TableNotJoinable
  | TableFull
  | BuyInTooLow
  | BuyInTooHigh
  | NotEnoughPlayers
  | HandInProgress
  | PlayerNotActive
  | NotYourTurn
  | CannotCheck
  | InsufficientStack
  | RaiseTooSmall
  | InvalidCardCount
  | InvalidGameState
  | HandNotComplete
  | InvalidWinner
  | CannotLeaveDuringHand
  | NoRakeToWithdraw
  deriving DecidableEq, Repr

/-- An instruction outcome: a typed ErrorCode, a failed external token
    transfer (join/leave call into the token program, which can fail), or a
    missing seat account (Anchor account resolution failure). -/
inductive Err
  | code (c : ErrorCode)
  | transferFailed
  | accountMissing
  deriving DecidableEq, Repr

/-- The Table account, from the source struct Table (the Anchor bump is
    account-layout plumbing and is omitted; pubkeys are modelled as Nat). -/
structure Table where
  table_id : Nat
  creator : Nat
  small_blind : Nat
  big_blind : Nat
  min_buy_in : Nat
  max_buy_in : Nat
  max_players : Nat
  player_count : Nat
  current_hand : Nat
  state : TableState
  pot : Nat
  dealer_position : Nat
  current_turn : Nat
  community_cards : List Nat
  community_card_count : Nat
  accumulated_rake : Nat
  deriving DecidableEq, Repr

/-- The Seat account, from the source struct Seat (bump omitted; pubkeys as
    Nat). -/
structure Seat where
  table : Nat
  agent : Nat
  human : Nat
  stack : Nat
  position : Nat
  is_active : Bool
  is_folded : Bool
  current_bet : Nat
  hole_cards : List Nat
  deriving DecidableEq, Repr

/-- create_table: initializes every Table field; the source performs no
    validation of the configuration (there is no require! in the handler),
    so the error component is always none. -/
def create_table (table_id creator small_blind big_blind min_buy_in
    max_buy_in max_players : Nat) : Option Err × Table :=
  (none,
    { table_id := table_id
      creator := creator
      small_blind := small_blind
      big_blind := big_blind
      min_buy_in := min_buy_in
      max_buy_in := max_buy_in
      max_players := max_players
      player_count := 0
      current_hand := 0
      state := TableState.Waiting
      pot := 0
      dealer_position := 0
      current_turn := 0
      community_cards := [0, 0, 0, 0, 0]
      community_card_count := 0
      accumulated_rake := 0 })

/-- join_table: validates state, capacity and buy-in bounds, performs the
    escrow deposit (modelled by the transfer_ok flag), then creates the seat
    and increments player_count.  On error the table is returned as it was
    and no seat is produced. -/
def join_table (table : Table) (agent human buy_in_amount : Nat)
    (transfer_ok : Bool) : Option Err × Table × Option Seat :=
  if table.state = TableState.Waiting ∨ table.state = TableState.BetweenHands then
    if table.player_count < table.max_players then
      if table.min_buy_in ≤ buy_in_amount then
        if buy_in_amount ≤ table.max_buy_in then
          if transfer_ok then
            let seat : Seat :=
              { table := table.table_id
                agent := agent
                human := human
                stack := buy_in_amount
                position := table.player_count
                is_active := true
                is_folded := false
                current_bet := 0
                hole_cards := [0, 0] }
            (none, { table with player_count := table.player_count + 1 }, some seat)
          else (some Err.transferFailed, table, none)
        else (some (Err.code ErrorCode.BuyInTooHigh), table, none)
      else (some (Err.code ErrorCode.BuyInTooLow), table, none)
    else (some (Err.code ErrorCode.TableFull), table, none)
  else (some (Err.code ErrorCode.TableNotJoinable), table, none)

/-- start_hand: requires at least two players and a resting state, then
    bumps the hand counter, moves to PreFlop, clears pot and community card
    count and rotates the dealer button.  It never touches any Seat account
    (none is in the instruction context) and never writes current_turn,
    community_cards or accumulated_rake. -/
def start_hand (table : Table) : Option Err × Table :=
  if 2 ≤ table.player_count then
    if table.state = TableState.Waiting ∨ table.state = TableState.BetweenHands then
      (none,
        { table with
            current_hand := table.current_hand + 1
            state := TableState.PreFlop
            pot := 0
            community_card_count := 0
            dealer_position := (table.dealer_position + 1) % table.player_count })
    else (some (Err.code ErrorCode.HandInProgress), table)
  else (some (Err.code ErrorCode.NotEnoughPlayers), table)

/-- get_current_bet: the source hardcodes the outstanding bet to the table
    big blind (its comment: simplified, would track actual current bet). -/
def get_current_bet (table : Table) : Nat :=
  table.big_blind

/-- advance_turn: unconditional modular increment of current_turn; the
    source does not skip folded or inactive seats. -/
def advance_turn (table : Table) : Table :=
  { table with current_turn := (table.current_turn + 1) % table.player_count }

/-- reset_bets_for_round: the source body is empty (its comment says it
    resets all player current_bet to 0, but it performs no write; the Table
    account alone is passed and seats are not reachable from it). -/
def reset_bets_for_round (table : Table) : Table :=
  table

/-- count_active_players: the source returns the placeholder constant 1
    instead of counting non-folded players. -/
def count_active_players (_table : Table) : Nat :=
  1

/-- player_action: activity and turn checks, then the per-action semantics
    of the source match, then advance_turn on every accepted action.  The
    two subtractions of the source (call_amount, raise_amount) are modelled
    by truncated Nat subtraction exactly where the source subtracts. -/
def player_action (table : Table) (seat : Seat) (action : PokerAction)
    (amount : Nat) : Option Err × Table × Seat :=
  if seat.is_active && !seat.is_folded then
    if seat.position = table.current_turn then
      match action with
      | PokerAction.Fold =>
          let seat := { seat with is_folded := true }
          (none, advance_turn table, seat)
      | PokerAction.Check =>
          if seat.current_bet = get_current_bet table then
            (none, advance_turn table, seat)
          else (some (Err.code ErrorCode.CannotCheck), table, seat)
      | PokerAction.Call =>
          let call_amount := get_current_bet table - seat.current_bet
          if call_amount ≤ seat.stack then
            let seat :=
              { seat with
                  stack := seat.stack - call_amount
                  current_bet := seat.current_bet + call_amount }
            let table := { table with pot := table.pot + call_amount }
            (none, advance_turn table, seat)
          else (some (Err.code ErrorCode.InsufficientStack), table, seat)
      | PokerAction.Raise =>
          if get_current_bet table < amount then
            let raise_amount := amount - seat.current_bet
            if raise_amount ≤ seat.stack then
              let seat :=
                { seat with
                    stack := seat.stack - raise_amount
                    current_bet := amount }
              let table := { table with pot := table.pot + raise_amount }
              (none, advance_turn table, seat)
            else (some (Err.code ErrorCode.InsufficientStack), table, seat)
          else (some (Err.code ErrorCode.RaiseTooSmall), table, seat)
      | PokerAction.AllIn =>
          let all_in_amount := seat.stack
          let table := { table with pot := table.pot + all_in_amount }
          let seat :=
            { seat with
                current_bet := seat.current_bet + all_in_amount
                stack := 0 }
          (none, advance_turn table, seat)
    else (some (Err.code ErrorCode.NotYourTurn), table, seat)
  else (some (Err.code ErrorCode.PlayerNotActive), table, seat)

/-- deal_community: the street transition match of the source; each branch
    checks the card count first and only then writes the community card
    slots, the count and the new state, and finally calls
    reset_bets_for_round. -/
def deal_community (table : Table) (cards : List Nat) : Option Err × Table :=
  match table.state with
  | TableState.PreFlop =>
      match cards with
      | [a, b, c] =>
          let table :=
            { table with
                community_cards := ((table.community_cards.set 0 a).set 1 b).set 2 c
                community_card_count := 3
                state := TableState.Flop }
          (none, reset_bets_for_round table)
      | _ => (some (Err.code ErrorCode.InvalidCardCount), table)
  | TableState.Flop =>
      match cards with
      | [a] =>
          let table :=
            { table with
                community_cards := table.community_cards.set 3 a
                community_card_count := 4
                state := TableState.Turn }
          (none, reset_bets_for_round table)
      | _ => (some (Err.code ErrorCode.InvalidCardCount), table)
  | TableState.Turn =>
      match cards with
      | [a] =>
          let table :=
            { table with
                community_cards := table.community_cards.set 4 a
                community_card_count := 5
                state := TableState.River }
          (none, reset_bets_for_round table)
      | _ => (some (Err.code ErrorCode.InvalidCardCount), table)
  | _ => (some (Err.code ErrorCode.InvalidGameState), table)

/-- settle_hand: eligibility check (River, or count_active_players = 1),
    winner position consistency check, then rake computation, payout,
    pot reset and transition to BetweenHands. -/
def settle_hand (table : Table) (winner_seat : Seat) (winner_position : Nat) :
    Option Err × Table × Seat :=
  if table.state = TableState.River ∨ count_active_players table = 1 then
    if winner_seat.position = winner_position then
      let pot := table.pot
      let rake := pot / 100000
      let winner_amount := pot - rake
      let table :=
        if 0 < rake then
          { table with accumulated_rake := table.accumulated_rake + rake }
        else table
      let winner_seat := { winner_seat with stack := winner_seat.stack + winner_amount }
      let table := { table with pot := 0, state := TableState.BetweenHands }
      (none, table, winner_seat)
    else (some (Err.code ErrorCode.InvalidWinner), table, winner_seat)
  else (some (Err.code ErrorCode.HandNotComplete), table, winner_seat)

/-- withdraw_rake: requires a positive accumulator, then zeroes it. -/
def withdraw_rake (table : Table) : Option Err × Table :=
  if 0 < table.accumulated_rake then
    (none, { table with accumulated_rake := 0 })
  else (some (Err.code ErrorCode.NoRakeToWithdraw), table)

/-- leave_table: requires a resting state, pays the stack back through the
    token program (modelled by transfer_ok), then decrements player_count;
    the seat account is closed by the runtime. -/
def leave_table (table : Table) (_seat : Seat) (transfer_ok : Bool) :
    Option Err × Table :=
  if table.state = TableState.Waiting ∨ table.state = TableState.BetweenHands then
    if transfer_ok then
      (none, { table with player_count := table.player_count - 1 })
    else (some Err.transferFailed, table)
  else (some (Err.code ErrorCode.CannotLeaveDuringHand), table)

/-- Global state: the Table account together with the list of live Seat
    accounts of that table, in join order. -/
structure GState where
  table : Table
  seats : List Seat
  deriving DecidableEq, Repr

/-- The seven mutating instructions, with the seat account an instruction
    touches identified by its index in the seat list. -/
inductive Op
  | join (agent human buy_in_amount : Nat) (transfer_ok : Bool)
  | leave (i : Nat) (transfer_ok : Bool)
  | start
  | act (i : Nat) (action : PokerAction) (amount : Nat)
  | deal (cards : List Nat)
  | settle (i : Nat) (winner_position : Nat)
  | withdraw
  deriving DecidableEq, Repr

/-- One instruction applied to the global state: resolves the seat account,
    runs the handler, and writes back the accounts the handler returned. -/
def runOp : Op → GState → Option Err × GState
  | Op.join agent human buy_in_amount transfer_ok, g =>
      match join_table g.table agent human buy_in_amount transfer_ok with
      | (none, t, some s) => (none, { table := t, seats := g.seats ++ [s] })
      | (none, t, none) => (none, { table := t, seats := g.seats })
      | (some e, t, _) => (some e, { table := t, seats := g.seats })
  | Op.leave i transfer_ok, g =>
      match g.seats.get? i with
      | none => (some Err.accountMissing, g)
      | some seat =>
          match leave_table g.table seat transfer_ok with
          | (none, t) => (none, { table := t, seats := g.seats.eraseIdx i })
          | (some e, t) => (some e, { table := t, seats := g.seats })
  | Op.start, g =>
      match start_hand g.table with
      | (e, t) => (e, { table := t, seats := g.seats })
  | Op.act i action amount, g =>
      match g.seats.get? i with
      | none => (some Err.accountMissing, g)
      | some seat =>
          match player_action g.table seat action amount with
          | (e, t, s) => (e, { table := t, seats := g.seats.set i s })
  | Op.deal cards, g =>
      match deal_community g.table cards with
      | (e, t) => (e, { table := t, seats := g.seats })
  | Op.settle i winner_position, g =>
      match g.seats.get? i with
      | none => (some Err.accountMissing, g)
      | some seat =>
          match settle_hand g.table seat winner_position with
          | (e, t, s) => (e, { table := t, seats := g.seats.set i s })
  | Op.withdraw, g =>
      match withdraw_rake g.table with
      | (e, t) => (e, { table := t, seats := g.seats })

/-- Reachable global states: a freshly created table with no seats, closed
    under successful instructions. -/
inductive Reach : GState → Prop
  | create (table_id creator small_blind big_blind min_buy_in max_buy_in
      max_players : Nat) :
      Reach
        { table := (create_table table_id creator small_blind big_blind
            min_buy_in max_buy_in max_players).2
          seats := [] }
  | step (op : Op) (g g' : GState) : Reach g → runOp op g = (none, g') → Reach g'

/-- Writing back the very element an index holds leaves a list unchanged. -/
theorem set_get_self {α : Type} :
    ∀ (l : List α) (i : Nat) (a : α), l.get? i = some a → l.set i a = l
  | [], i, a, h => by simp at h
  | x :: xs, 0, a, h => by
      simp only [List.get?, Option.some.injEq] at h
      simp [h]
  | x :: xs, i + 1, a, h => by
      simp only [List.get?] at h
      simp [set_get_self xs i a h]

/-- join_table leaves the table untouched and creates no seat on any error. -/
theorem join_table_frame (t : Table) (a hu b : Nat) (ok : Bool) (e : Err)
    (t2 : Table) (so : Option Seat)
    (h : join_table t a hu b ok = (some e, t2, so)) : t2 = t ∧ so = none := by
  unfold join_table at h
  split_ifs at h <;> simp_all

/-- leave_table leaves the table untouched on any error. -/
theorem leave_table_frame (t : Table) (s : Seat) (ok : Bool) (e : Err)
    (t2 : Table) (h : leave_table t s ok = (some e, t2)) : t2 = t := by
  unfold leave_table at h
  split_ifs at h <;> simp_all

/-- start_hand leaves the table untouched on any error. -/
theorem start_hand_frame (t : Table) (e : Err) (t2 : Table)
    (h : start_hand t = (some e, t2)) : t2 = t := by
  unfold start_hand at h
  split_ifs at h <;> simp_all

/-- player_action leaves both accounts untouched on any error. -/
theorem player_action_frame (t : Table) (s : Seat) (a : PokerAction) (amt : Nat)
    (e : Err) (t2 : Table) (s2 : Seat)
    (h : player_action t s a amt = (some e, t2, s2)) : t2 = t ∧ s2 = s := by
  cases a <;>
    (unfold player_action at h; dsimp only at h; split_ifs at h <;> simp_all)

/-- deal_community leaves the table untouched on any error. -/
theorem deal_community_frame (t : Table) (cards : List Nat) (e : Err)
    (t2 : Table) (h : deal_community t cards = (some e, t2)) : t2 = t := by
  unfold deal_community at h
  split at h <;> (try split at h) <;> simp_all

/-- settle_hand leaves both accounts untouched on any error. -/
theorem settle_hand_frame (t : Table) (s : Seat) (p : Nat) (e : Err)
    (t2 : Table) (s2 : Seat)
    (h : settle_hand t s p = (some e, t2, s2)) : t2 = t ∧ s2 = s := by
  unfold settle_hand at h
  split_ifs at h <;> simp_all

/-- withdraw_rake leaves the table untouched on any error. -/
theorem withdraw_rake_frame (t : Table) (e : Err) (t2 : Table)
    (h : withdraw_rake t = (some e, t2)) : t2 = t := by
  unfold withdraw_rake at h
  split_ifs at h <;> simp_all

/-- Claim C7: every operation is atomic on failure — whenever any of the
    seven mutating operations (join_table, leave_table, start_hand,
    player_action, deal_community, settle_hand, withdraw_rake) returns an
    error, no field of the table or of any seat has been mutated: the
    resulting global state equals the state before the call. -/
theorem claim_C7 (op : Op) (g : GState) (e : Err) (g' : GState)
    (h : runOp op g = (some e, g')) : g' = g := by
  cases op with
  | join a hu b ok =>
      simp only [runOp] at h
      split at h
      · simp_all
      · simp_all
      · rename_i e1 t so heq
        simp only [Prod.mk.injEq] at h
        obtain ⟨he, hg⟩ := h
        obtain ⟨ht, -⟩ := join_table_frame g.table a hu b ok e t so (he ▸ heq)
        rw [← hg, ht]
  | leave i ok =>
      simp only [runOp] at h
      cases hseat : g.seats.get? i with
      | none => simp only [hseat] at h; simp_all
      | some seat =>
          simp only [hseat] at h
          cases hlv : leave_table g.table seat ok with
          | mk e2 t2 =>
              simp only [hlv] at h
              cases e2 with
              | none => simp_all
              | some e2 =>
                  simp only [Prod.mk.injEq, Option.some.injEq] at h
                  obtain ⟨he, hg⟩ := h
                  have ht := leave_table_frame g.table seat ok e2 t2 hlv
                  rw [← hg, ht]
  | start =>
      simp only [runOp] at h
      cases hst : start_hand g.table with
      | mk e2 t2 =>
          simp only [hst] at h
          cases e2 with
          | none => simp_all
          | some e2 =>
              simp only [Prod.mk.injEq, Option.some.injEq] at h
              obtain ⟨he, hg⟩ := h
              have ht := start_hand_frame g.table e2 t2 hst
              rw [← hg, ht]
  | act i action amount =>
      simp only [runOp] at h
      cases hseat : g.seats.get? i with
      | none => simp only [hseat] at h; simp_all
      | some seat =>
          simp only [hseat] at h
          cases hpa : player_action g.table seat action amount with
          | mk e2 ts =>
              obtain ⟨t2, s2⟩ := ts
              simp only [hpa] at h
              cases e2 with
              | none => simp_all
              | some e2 =>
                  simp only [Prod.mk.injEq, Option.some.injEq] at h
                  obtain ⟨he, hg⟩ := h
                  obtain ⟨ht, hs⟩ :=
                    player_action_frame g.table seat action amount e2 t2 s2 hpa
                  rw [← hg, ht, hs, set_get_self g.seats i seat hseat]
  | deal cards =>
      simp only [runOp] at h
      cases hdc : deal_community g.table cards with
      | mk e2 t2 =>
          simp only [hdc] at h
          cases e2 with
          | none => simp_all
          | some e2 =>
              simp only [Prod.mk.injEq, Option.some.injEq] at h
              obtain ⟨he, hg⟩ := h
              have ht := deal_community_frame g.table cards e2 t2 hdc
              rw [← hg, ht]
  | settle i p =>
      simp only [runOp] at h
      cases hseat : g.seats.get? i with
      | none => simp only [hseat] at h; simp_all
      | some seat =>
          simp only [hseat] at h
          cases hsh : settle_hand g.table seat p with
          | mk e2 ts =>
              obtain ⟨t2, s2⟩ := ts
              simp only [hsh] at h
              cases e2 with
              | none => simp_all
              | some e2 =>
                  simp only [Prod.mk.injEq, Option.some.injEq] at h
                  obtain ⟨he, hg⟩ := h
                  obtain ⟨ht, hs⟩ := settle_hand_frame g.table seat p e2 t2 s2 hsh
                  rw [← hg, ht, hs, set_get_self g.seats i seat hseat]
  | withdraw =>
      simp only [runOp] at h
      cases hwr : withdraw_rake g.table with
      | mk e2 t2 =>
          simp only [hwr] at h
          cases e2 with
          | none => simp_all
          | some e2 =>
              simp only [Prod.mk.injEq, Option.some.injEq] at h
              obtain ⟨he, hg⟩ := h
              have ht := withdraw_rake_frame g.table e2 t2 hwr
              rw [← hg, ht]

/-
  A concrete play-through used by the claims about reachable states:
  (g0 is also used as the concrete input of the C7 witness below, where
  start_hand fails with NotEnoughPlayers on the empty table.)
  a table with blinds 1/2, buy-in range 20..200, up to 6 players; two (or,
  in the k-branch, three) agents join with 100 each, a hand starts and the
  players act.  Every state below is reached by successful instructions
  only.
-/

/-- Fresh table 1: blinds 1/2, buy-ins 20..200, max 6 players, no seats. -/
def g0 : GState := { table := (create_table 1 9 1 2 20 200 6).2, seats := [] }

/-- Agent 11 joins with 100 (seat position 0). -/
def g1 : GState := (runOp (Op.join 11 21 100 true) g0).2

/-- Agent 12 joins with 100 (seat position 1). -/
def g2 : GState := (runOp (Op.join 12 22 100 true) g1).2

/-- A hand starts: PreFlop, two players, current_turn 0. -/
def g3 : GState := (runOp Op.start g2).2

/-- Seat 0 raises to 10: its current_bet becomes 10, pot 10, turn 1. -/
def g4 : GState := (runOp (Op.act 0 PokerAction.Raise 10) g3).2

/-- Seat 1 calls (the hardcoded big blind 2): pot 12, turn back to 0. -/
def g5 : GState := (runOp (Op.act 1 PokerAction.Call 0) g4).2

/-- The flop is dealt from g5; the seats keep their round bets 10 and 2. -/
def g6 : GState := (runOp (Op.deal [5, 6, 7]) g5).2

/-- Seat 0 folds on the flop. -/
def g7 : GState := (runOp (Op.act 0 PokerAction.Fold 0) g6).2

/-- The hand is settled for seat 1; the table rests at BetweenHands with
    seat 0 still folded and the round bets 10 and 2 still in place. -/
def g8 : GState := (runOp (Op.settle 1 1) g7).2

/-- Seat 0 folds pre-flop from g5 (pot 12, its bet 10 committed). -/
def f1 : GState := (runOp (Op.act 0 PokerAction.Fold 0) g5).2

/-- Agent 13 joins the two-player waiting table (third seat, position 2). -/
def k3 : GState := (runOp (Op.join 13 23 100 true) g2).2

/-- A hand starts with three players. -/
def k4 : GState := (runOp Op.start k3).2

/-- Seat 0 calls. -/
def k5 : GState := (runOp (Op.act 0 PokerAction.Call 0) k4).2

/-- Seat 1 folds. -/
def k6 : GState := (runOp (Op.act 1 PokerAction.Fold 0) k5).2

/-- Seat 2 calls; the turn wraps back to seat 0 with seat 1 folded. -/
def k7 : GState := (runOp (Op.act 2 PokerAction.Call 0) k6).2

theorem reach_g0 : Reach g0 := Reach.create 1 9 1 2 20 200 6

theorem reach_g1 : Reach g1 :=
  Reach.step (Op.join 11 21 100 true) g0 g1 reach_g0 rfl

theorem reach_g2 : Reach g2 :=
  Reach.step (Op.join 12 22 100 true) g1 g2 reach_g1 rfl

theorem reach_g3 : Reach g3 :=
  Reach.step Op.start g2 g3 reach_g2 rfl

theorem reach_g4 : Reach g4 :=
  Reach.step (Op.act 0 PokerAction.Raise 10) g3 g4 reach_g3 rfl

theorem reach_g5 : Reach g5 :=
  Reach.step (Op.act 1 PokerAction.Call 0) g4 g5 reach_g4 rfl

theorem reach_g6 : Reach g6 :=
  Reach.step (Op.deal [5, 6, 7]) g5 g6 reach_g5 rfl

theorem reach_g7 : Reach g7 :=
  Reach.step (Op.act 0 PokerAction.Fold 0) g6 g7 reach_g6 rfl

theorem reach_g8 : Reach g8 :=
  Reach.step (Op.settle 1 1) g7 g8 reach_g7 rfl

theorem reach_f1 : Reach f1 :=
  Reach.step (Op.act 0 PokerAction.Fold 0) g5 f1 reach_g5 rfl

theorem reach_k3 : Reach k3 :=
  Reach.step (Op.join 13 23 100 true) g2 k3 reach_g2 rfl

theorem reach_k4 : Reach k4 :=
  Reach.step Op.start k3 k4 reach_k3 rfl

theorem reach_k5 : Reach k5 :=
  Reach.step (Op.act 0 PokerAction.Call 0) k4 k5 reach_k4 rfl

theorem reach_k6 : Reach k6 :=
  Reach.step (Op.act 1 PokerAction.Fold 0) k5 k6 reach_k5 rfl

theorem reach_k7 : Reach k7 :=
  Reach.step (Op.act 2 PokerAction.Call 0) k6 k7 reach_k6 rfl

/-- Claim C1: whenever settle_hand succeeds, rake = pot / 100000 (integer
    division) and payout = pot - rake with payout + rake = pot exactly; the
    rake is added to accumulated_rake, the payout to the winner seat stack,
    the pot is zeroed and the state becomes BetweenHands. -/
theorem claim_C1 (t : Table) (s : Seat) (p : Nat) (t' : Table) (s' : Seat)
    (h : settle_hand t s p = (none, t', s')) :
    (t.pot - t.pot / 100000) + t.pot / 100000 = t.pot ∧
    t'.accumulated_rake = t.accumulated_rake + t.pot / 100000 ∧
    s'.stack = s.stack + (t.pot - t.pot / 100000) ∧
    t'.pot = 0 ∧
    t'.state = TableState.BetweenHands := by
  unfold settle_hand at h
  dsimp only at h
  split_ifs at h with h1 h2 h3 <;>
    simp only [Prod.mk.injEq, reduceCtorEq, false_and, true_and] at h
  · obtain ⟨ht, hs⟩ := h
    refine ⟨Nat.sub_add_cancel (Nat.div_le_self t.pot 100000), ?_, ?_, ?_, ?_⟩ <;>
      simp [← ht, ← hs]
  · obtain ⟨ht, hs⟩ := h
    have hz : t.pot / 100000 = 0 := Nat.le_zero.mp (Nat.not_lt.mp h3)
    refine ⟨Nat.sub_add_cancel (Nat.div_le_self t.pot 100000), ?_, ?_, ?_, ?_⟩ <;>
      simp [← ht, ← hs, hz]

/-- A table at the River street with pot 250000, used as the C1 witness. -/
def t_c1 : Table :=
  { table_id := 2
    creator := 9
    small_blind := 1
    big_blind := 2
    min_buy_in := 20
    max_buy_in := 200
    max_players := 6
    player_count := 2
    current_hand := 1
    state := TableState.River
    pot := 250000
    dealer_position := 1
    current_turn := 0
    community_cards := [5, 6, 7, 8, 9]
    community_card_count := 5
    accumulated_rake := 5 }

/-- The matching winner seat for the C1 witness. -/
def s_c1 : Seat :=
  { table := 2
    agent := 11
    human := 21
    stack := 100
    position := 3
    is_active := true
    is_folded := false
    current_bet := 0
    hole_cards := [0, 0] }

theorem claim_C1_witness :
    (250000 - 250000 / 100000) + 250000 / 100000 = 250000 ∧
    (settle_hand t_c1 s_c1 3).2.1.accumulated_rake = 5 + 250000 / 100000 ∧
    (settle_hand t_c1 s_c1 3).2.2.stack = 100 + (250000 - 250000 / 100000) ∧
    (settle_hand t_c1 s_c1 3).2.1.pot = 0 ∧
    (settle_hand t_c1 s_c1 3).2.1.state = TableState.BetweenHands :=
  claim_C1 t_c1 s_c1 3 (settle_hand t_c1 s_c1 3).2.1 (settle_hand t_c1 s_c1 3).2.2 rfl

/-- Claim C2 (code bug): in the reachable state g3 the hand is mid-play —
    the table is at PreFlop and both seats are non-folded — yet settle_hand
    succeeds, because count_active_players is the placeholder constant 1 and
    the eligibility check never fails; the claim requires HandNotComplete
    here. -/
theorem claim_C2_bug :
    Reach g3 ∧
    g3.table.state = TableState.PreFlop ∧
    g3.seats.map Seat.is_folded = [false, false] ∧
    count_active_players g3.table = 1 ∧
    (runOp (Op.settle 0 0) g3).1 = none ∧
    (runOp (Op.settle 0 0) g3).2.table.state = TableState.BetweenHands :=
  ⟨reach_g3, by decide, by decide, rfl, by decide, by decide⟩

/-- Claim C3 (code bug): dealing the flop from the reachable state g5
    succeeds but leaves the seats' current_bet at 10 and 2 (the source's
    reset_bets_for_round has an empty body), and starting the next hand from
    the reachable state g8 succeeds but leaves current_bet at 10 and 2 and
    seat 0 still folded (start_hand touches no Seat account); the claim
    requires all of them to be reset. -/
theorem claim_C3_bug :
    Reach g5 ∧
    (runOp (Op.deal [5, 6, 7]) g5).1 = none ∧
    (runOp (Op.deal [5, 6, 7]) g5).2.table.state = TableState.Flop ∧
    (runOp (Op.deal [5, 6, 7]) g5).2.seats.map Seat.current_bet = [10, 2] ∧
    Reach g8 ∧
    g8.table.state = TableState.BetweenHands ∧
    (runOp Op.start g8).1 = none ∧
    (runOp Op.start g8).2.table.state = TableState.PreFlop ∧
    (runOp Op.start g8).2.seats.map Seat.current_bet = [10, 2] ∧
    (runOp Op.start g8).2.seats.map Seat.is_folded = [true, false] :=
  ⟨reach_g5, by decide, by decide, by decide, reach_g8, by decide, by decide,
    by decide, by decide, by decide⟩

theorem claim_C7_witness : (runOp Op.start g0).2 = g0 :=
  claim_C7 Op.start g0 (Err.code ErrorCode.NotEnoughPlayers) (runOp Op.start g0).2 rfl

/-- Claim C4 (counterexample): in the reachable three-player state k7 the
    seat at position 1 is folded and the seat at position 2 is active and
    non-folded, yet after seat 0's accepted Check the table's current_turn
    is 1 — the folded seat is selected, refuting that current_turn is always
    the next active, non-folded seat. -/
theorem claim_C4_cex :
    Reach k7 ∧
    k7.table.current_turn = 0 ∧
    k7.seats.map Seat.position = [0, 1, 2] ∧
    k7.seats.map Seat.is_folded = [false, true, false] ∧
    k7.seats.map Seat.is_active = [true, true, true] ∧
    (runOp (Op.act 0 PokerAction.Check 0) k7).1 = none ∧
    (runOp (Op.act 0 PokerAction.Check 0) k7).2.table.current_turn = 1 :=
  ⟨reach_k7, by decide, by decide, by decide, by decide, by decide, by decide⟩

/-- Claim C4 (amended): after any accepted player_action the acting seat's
    position equals the previous current_turn and the new current_turn is
    (current_turn + 1) % player_count — the seat at that position may be
    folded or inactive. -/
theorem claim_C4_amended (t : Table) (s : Seat) (a : PokerAction) (amt : Nat)
    (t' : Table) (s' : Seat) (h : player_action t s a amt = (none, t', s')) :
    s.position = t.current_turn ∧
    t'.current_turn = (t.current_turn + 1) % t.player_count := by
  cases a <;>
    (unfold player_action at h
     dsimp only at h
     split_ifs at h <;>
       simp only [Prod.mk.injEq, reduceCtorEq, false_and, true_and] at h) <;>
    (obtain ⟨ht, hs⟩ := h
     constructor
     · assumption
     · rw [← ht]; simp [advance_turn])

/-- A PreFlop table whose turn is at seat 0, for the C4 witness. -/
def t_w4 : Table :=
  { table_id := 3
    creator := 9
    small_blind := 1
    big_blind := 2
    min_buy_in := 20
    max_buy_in := 200
    max_players := 6
    player_count := 2
    current_hand := 1
    state := TableState.PreFlop
    pot := 0
    dealer_position := 1
    current_turn := 0
    community_cards := [0, 0, 0, 0, 0]
    community_card_count := 0
    accumulated_rake := 0 }

/-- The acting seat for the C4 witness. -/
def s_w4 : Seat :=
  { table := 3
    agent := 11
    human := 21
    stack := 100
    position := 0
    is_active := true
    is_folded := false
    current_bet := 0
    hole_cards := [0, 0] }

theorem claim_C4_witness :
    s_w4.position = t_w4.current_turn ∧
    (player_action t_w4 s_w4 PokerAction.Fold 0).2.1.current_turn =
      (t_w4.current_turn + 1) % t_w4.player_count :=
  claim_C4_amended t_w4 s_w4 PokerAction.Fold 0
    (player_action t_w4 s_w4 PokerAction.Fold 0).2.1
    (player_action t_w4 s_w4 PokerAction.Fold 0).2.2 rfl

/-- Claim C5: deal_community succeeds only along PreFlop→Flop (3 cards,
    count 3), Flop→Turn (1 card, count 4), Turn→River (1 card, count 5);
    any other starting state fails InvalidGameState and a wrong card count
    fails InvalidCardCount, both leaving the table (community cards, count
    and state included) unchanged. -/
theorem claim_C5 :
    (∀ (t : Table) (cards : List Nat) (t' : Table),
       deal_community t cards = (none, t') →
       ((t.state = TableState.PreFlop ∧ cards.length = 3 ∧
           t'.state = TableState.Flop ∧ t'.community_card_count = 3) ∨
        (t.state = TableState.Flop ∧ cards.length = 1 ∧
           t'.state = TableState.Turn ∧ t'.community_card_count = 4) ∨
        (t.state = TableState.Turn ∧ cards.length = 1 ∧
           t'.state = TableState.River ∧ t'.community_card_count = 5))) ∧
    (∀ (t : Table) (cards : List Nat),
       (t.state = TableState.Waiting ∨ t.state = TableState.River ∨
        t.state = TableState.Showdown ∨ t.state = TableState.BetweenHands) →
       deal_community t cards = (some (Err.code ErrorCode.InvalidGameState), t)) ∧
    (∀ (t : Table) (cards : List Nat),
       t.state = TableState.PreFlop → cards.length ≠ 3 →
       deal_community t cards = (some (Err.code ErrorCode.InvalidCardCount), t)) ∧
    (∀ (t : Table) (cards : List Nat),
       (t.state = TableState.Flop ∨ t.state = TableState.Turn) →
       cards.length ≠ 1 →
       deal_community t cards = (some (Err.code ErrorCode.InvalidCardCount), t)) := by
  refine ⟨?_, ?_, ?_, ?_⟩
  · intro t cards t' h
    unfold deal_community reset_bets_for_round at h
    split at h <;> rename_i hst
    · split at h <;>
        simp only [Prod.mk.injEq, reduceCtorEq, false_and, true_and] at h
      exact Or.inl ⟨hst, rfl, by rw [← h], by rw [← h]⟩
    · split at h <;>
        simp only [Prod.mk.injEq, reduceCtorEq, false_and, true_and] at h
      exact Or.inr (Or.inl ⟨hst, rfl, by rw [← h], by rw [← h]⟩)
    · split at h <;>
        simp only [Prod.mk.injEq, reduceCtorEq, false_and, true_and] at h
      exact Or.inr (Or.inr ⟨hst, rfl, by rw [← h], by rw [← h]⟩)
    · simp only [Prod.mk.injEq, reduceCtorEq, false_and] at h
  · intro t cards hst
    rcases hst with h | h | h | h <;> simp only [deal_community, h]
  · intro t cards hst hlen
    unfold deal_community
    rw [hst]
    rcases cards with _ | ⟨a, _ | ⟨b, _ | ⟨c, _ | ⟨d, rest⟩⟩⟩⟩
    · rfl
    · rfl
    · rfl
    · exact absurd rfl hlen
    · rfl
  · intro t cards hst hlen
    unfold deal_community
    rcases hst with h | h <;> rw [h] <;>
      rcases cards with _ | ⟨a, _ | ⟨b, rest⟩⟩ <;>
      first
        | rfl
        | exact absurd rfl hlen

theorem claim_C5_witness :
    ((g3.table.state = TableState.PreFlop ∧ ([4, 5, 6] : List Nat).length = 3 ∧
        (deal_community g3.table [4, 5, 6]).2.state = TableState.Flop ∧
        (deal_community g3.table [4, 5, 6]).2.community_card_count = 3) ∨
     (g3.table.state = TableState.Flop ∧ ([4, 5, 6] : List Nat).length = 1 ∧
        (deal_community g3.table [4, 5, 6]).2.state = TableState.Turn ∧
        (deal_community g3.table [4, 5, 6]).2.community_card_count = 4) ∨
     (g3.table.state = TableState.Turn ∧ ([4, 5, 6] : List Nat).length = 1 ∧
        (deal_community g3.table [4, 5, 6]).2.state = TableState.River ∧
        (deal_community g3.table [4, 5, 6]).2.community_card_count = 5)) ∧
    deal_community g3.table [4, 5] =
      (some (Err.code ErrorCode.InvalidCardCount), g3.table) :=
  ⟨claim_C5.1 g3.table [4, 5, 6] (deal_community g3.table [4, 5, 6]).2 rfl,
   claim_C5.2.2.1 g3.table [4, 5] rfl (by decide)⟩

/-- Claim C6 (counterexample): create_table succeeds (no error) on a
    configuration with small_blind 5 > big_blind 1, min_buy_in 10 >
    max_buy_in 5 and max_players 0 < 2 — the handler performs no validation,
    refuting that it succeeds only on validated configurations. -/
theorem claim_C6_cex :
    (create_table 7 9 5 1 10 5 0).1 = none ∧
    (create_table 7 9 5 1 10 5 0).2.small_blind = 5 ∧
    (create_table 7 9 5 1 10 5 0).2.big_blind = 1 ∧
    (create_table 7 9 5 1 10 5 0).2.min_buy_in = 10 ∧
    (create_table 7 9 5 1 10 5 0).2.max_buy_in = 5 ∧
    (create_table 7 9 5 1 10 5 0).2.max_players = 0 ∧
    ¬((create_table 7 9 5 1 10 5 0).2.small_blind ≤
        (create_table 7 9 5 1 10 5 0).2.big_blind) ∧
    ¬((create_table 7 9 5 1 10 5 0).2.min_buy_in ≤
        (create_table 7 9 5 1 10 5 0).2.max_buy_in) ∧
    ¬(2 ≤ (create_table 7 9 5 1 10 5 0).2.max_players) := by
  decide

/-- Claim C6 (amended): create_table performs no validation — it succeeds
    for every configuration — and always produces a new Table in state
    Waiting with player_count 0, current_hand 0, pot 0, accumulated_rake 0
    and community_card_count 0. -/
theorem claim_C6_amended (table_id creator small_blind big_blind min_buy_in
    max_buy_in max_players : Nat) :
    (create_table table_id creator small_blind big_blind min_buy_in
        max_buy_in max_players).1 = none ∧
    (create_table table_id creator small_blind big_blind min_buy_in
        max_buy_in max_players).2.state = TableState.Waiting ∧
    (create_table table_id creator small_blind big_blind min_buy_in
        max_buy_in max_players).2.player_count = 0 ∧
    (create_table table_id creator small_blind big_blind min_buy_in
        max_buy_in max_players).2.current_hand = 0 ∧
    (create_table table_id creator small_blind big_blind min_buy_in
        max_buy_in max_players).2.pot = 0 ∧
    (create_table table_id creator small_blind big_blind min_buy_in
        max_buy_in max_players).2.accumulated_rake = 0 ∧
    (create_table table_id creator small_blind big_blind min_buy_in
        max_buy_in max_players).2.community_card_count = 0 :=
  ⟨rfl, rfl, rfl, rfl, rfl, rfl, rfl⟩

/-- The seat account of position 0 in the reachable state g5, whose
    current_bet 10 exceeds the hardcoded outstanding bet (big blind 2). -/
def s_c8 : Seat :=
  { table := 1
    agent := 11
    human := 21
    stack := 90
    position := 0
    is_active := true
    is_folded := false
    current_bet := 10
    hole_cards := [0, 0] }

/-- Claim C8 (code bug): in the reachable state g5 the seat at index 0
    passes every Call precondition (active, non-folded, its position equals
    current_turn) while its current_bet 10 exceeds get_current_bet = 2, so
    the source's u64 subtraction get_current_bet(table) - seat.current_bet
    underflows; likewise Raise with amount 3 passes the amount >
    get_current_bet check while current_bet 10 > 3, so amount -
    seat.current_bet underflows. -/
theorem claim_C8_bug :
    Reach g5 ∧
    g5.seats.get? 0 = some s_c8 ∧
    s_c8.is_active = true ∧
    s_c8.is_folded = false ∧
    s_c8.position = g5.table.current_turn ∧
    get_current_bet g5.table = 2 ∧
    s_c8.current_bet = 10 ∧
    get_current_bet g5.table < s_c8.current_bet ∧
    (runOp (Op.act 0 PokerAction.Call 0) g5).1 = none ∧
    get_current_bet g5.table < 3 ∧
    ¬(s_c8.current_bet ≤ 3) :=
  ⟨reach_g5, by decide, rfl, rfl, by decide, rfl, rfl, by decide, by decide,
    by decide, by decide⟩

/-- Claim C9: settle_hand fails with InvalidWinner exactly when the winner
    seat's position differs from the supplied winner_position; it imposes no
    non-folded or active requirement on the winner — in the reachable state
    f1 the seat at position 0 is folded, matches the supplied position, and
    receives the full payout (pot 12, rake 0: stack 90 becomes 102). -/
theorem claim_C9 :
    (∀ (t : Table) (s : Seat) (p : Nat),
       (settle_hand t s p).1 = some (Err.code ErrorCode.InvalidWinner) ↔
         ¬ s.position = p) ∧
    Reach f1 ∧
    f1.seats.map Seat.is_folded = [true, false] ∧
    f1.seats.map Seat.position = [0, 1] ∧
    f1.table.pot = 12 ∧
    f1.seats.map Seat.stack = [90, 98] ∧
    (runOp (Op.settle 0 0) f1).1 = none ∧
    (runOp (Op.settle 0 0) f1).2.seats.map Seat.stack = [102, 98] := by
  refine ⟨?_, reach_f1, by decide, by decide, by decide, by decide, by decide,
    by decide⟩
  intro t s p
  unfold settle_hand
  dsimp only
  split_ifs with h1 h2
  · simp [h2]
  · simp [h2]
  · exact absurd (Or.inr rfl) h1

theorem claim_C9_witness :
    (settle_hand t_c1 s_c1 9).1 = some (Err.code ErrorCode.InvalidWinner) :=
  (claim_C9.1 t_c1 s_c1 9).mpr (by decide)

/-- Claim C10: start_hand never writes current_turn, the community card
    array contents or accumulated_rake — on success and on failure alike
    they equal their values before the call. -/
theorem claim_C10 (t : Table) :
    (start_hand t).2.current_turn = t.current_turn ∧
    (start_hand t).2.community_cards = t.community_cards ∧
    (start_hand t).2.accumulated_rake = t.accumulated_rake := by
  unfold start_hand
  split_ifs <;> simp

end AgentPoker
